import Mathlib

/-!
# CorpSpend / FinLedger — shallow embedding and verification

This file embeds the core of the FinLedger corporate-card spend ledger in
Lean 4 and proves the specified properties about it:

* `app/services/fraud.py` — the fraud-detection engine (`FraudCheckResult`,
  the three default rules, `FraudEngine.check_transaction`);
* `finledger/app/services/ledger.py` — the ledger service
  (`process_transaction`, `create_card`, `verify_transaction_receipt`);
* `finledger/worker/tasks.py` — the targeted receipt-matching logic of
  `match_receipt`;
* `app/models.py` — the `Card` / `Transaction` data model and its
  check constraints.

Monetary `Decimal` values and risk scores are embedded as `ℚ` (the
arithmetic the ledger and fraud engine perform on them — addition,
subtraction, `min`, comparisons — is exact on `Decimal` and is mirrored
exactly on `ℚ`). The receipt matcher is the one place the code leaves
`Decimal`: its amount test coerces both amounts through IEEE-754 doubles
(`float()`), and `float64round` models that rounding bit-exactly.
Database rows live in explicit in-memory state (association lists keyed by
an abstract id); the row-level `SELECT ... FOR UPDATE` lock serializes
`process_transaction` calls per account, which is modelled by sequential
composition of the state-passing function. Python string handling
(`str.upper`, `str.strip`, substring `in`) is embedded structurally on
`List Char`.
-/

/-! ## String helpers (Python `in`, `str.upper`, `str.strip`) -/

/-- `charsStartWith needle l` : `needle` is a prefix of `l` (char lists). -/
def charsStartWith : List Char → List Char → Bool
  | [], _ => true
  | _ :: _, [] => false
  | a :: as, b :: bs => a == b && charsStartWith as bs

/-- `charsContain needle l` : `needle` occurs contiguously inside `l`;
mirrors Python's substring operator `in` (the empty needle is contained
in everything). -/
def charsContain (needle : List Char) : List Char → Bool
  | [] => charsStartWith needle []
  | h :: t => charsStartWith needle (h :: t) || charsContain needle t

/-- Python `needle in haystack` on strings. -/
def substrOf (needle haystack : String) : Bool :=
  charsContain needle.data haystack.data

/-- Python `str.upper()` (ASCII case mapping, which covers every merchant
string the system handles). -/
def strUpper (s : String) : String := ⟨s.data.map Char.toUpper⟩

/-- Python `str.strip()` : drop leading and trailing whitespace. -/
def strStrip (s : String) : String :=
  ⟨((s.data.dropWhile Char.isWhitespace).reverse.dropWhile
      Char.isWhitespace).reverse⟩

/-! ## Data model (`app/models.py`) -/

/-- `TransactionStatus` — transaction lifecycle states. -/
inductive TransactionStatus where
  | PENDING
  | APPROVED
  | DECLINED
  | VERIFIED
  | FLAGGED
deriving DecidableEq, Repr

/-- `CardStatus` — card lifecycle states. -/
inductive CardStatus where
  | ACTIVE
  | FROZEN
  | CANCELLED
deriving DecidableEq, Repr

/-- `Card` — a corporate card row: spending limit, current balance, status.
The database check constraints (`current_balance >= 0`,
`current_balance <= spending_limit`, `spending_limit > 0`) are stated as
the reachability invariant below. -/
structure Card where
  card_number : String
  cardholder_name : String
  spending_limit : ℚ
  current_balance : ℚ
  status : CardStatus
deriving DecidableEq, Repr

/-- `Card.available_balance` — remaining spending capacity
(`@property` on the model: `spending_limit - current_balance`). -/
def Card.available_balance (c : Card) : ℚ :=
  c.spending_limit - c.current_balance

/-- `Transaction` — one spend attempt and its outcome (append-only ledger
row). Timestamps are abstract `Nat` instants. -/
structure Transaction where
  card_id : Nat
  amount : ℚ
  merchant_name : String
  merchant_category : Option String := none
  description : Option String := none
  status : TransactionStatus := .PENDING
  receipt_path : Option String := none
  receipt_verified : Bool := false
  receipt_verified_at : Option Nat := none
  fraud_score : Option ℚ := none
  fraud_reason : Option String := none
deriving DecidableEq, Repr

/-! ## Fraud engine (`app/services/fraud.py`) -/

/-- `FraudCheckResult` — result of a fraud check: `passed`, running
`score` (0 to 1), `reasons`, `blocked`. -/
structure FraudCheckResult where
  passed : Bool := true
  score : ℚ := 0
  reasons : List String := []
  blocked : Bool := false
deriving DecidableEq, Repr

/-- `FraudCheckResult.add_risk` — add risk points (score capped at
`1.0000`), append the reason, and clear `passed` once the score reaches
`0.7000`. -/
def FraudCheckResult.add_risk (r : FraudCheckResult) (risk_points : ℚ)
    (reason : String) : FraudCheckResult :=
  let score := min 1 (r.score + risk_points)
  { r with
    score := score
    reasons := r.reasons ++ [reason]
    passed := if score ≥ 7/10 then false else r.passed }

/-- The observable behaviour of one `FraudRule.evaluate` call: either the
rule raised internally, or it returned `(violated, reason)`. The concrete
rules always return a reason string alongside `violated = true`. -/
inductive RuleOutcome where
  | raised
  | eval (violated : Bool) (reason : String)
deriving DecidableEq, Repr

/-- One configured rule as seen by `FraudEngine.check_transaction` on a
fixed input: its `weight` and the outcome of its `evaluate` call. -/
structure RuleSpec where
  weight : ℚ
  outcome : RuleOutcome
deriving DecidableEq, Repr

/-- The rule loop of `FraudEngine.check_transaction`: rules run in list
order against the accumulating result; a raising rule is skipped; a
violated rule adds its weight and reason; a violated rule of weight
`≥ 1.0000` additionally sets `blocked`/`passed := false` and breaks. -/
def runRules (r : FraudCheckResult) : List RuleSpec → FraudCheckResult
  | [] => r
  | rule :: rest =>
    match rule.outcome with
    | .raised => runRules r rest
    | .eval violated reason =>
      if violated then
        let r' := r.add_risk rule.weight reason
        if rule.weight ≥ 1 then { r' with blocked := true, passed := false }
        else runRules r' rest
      else runRules r rest

/-- `FraudEngine.check_transaction` — run all rules against a fresh
`FraudCheckResult`. -/
def check_transaction (rules : List RuleSpec) : FraudCheckResult :=
  runRules {} rules

/-! ### The three concrete default rules

`FraudEngine._setup_default_rules` installs, in order:
`AmountThresholdRule` (weight 1.0000), `MerchantBlacklistRule`
(weight 1.0000), `VelocityRule` (weight 0.3000). Only `VelocityRule` is
stateful; its per-card timestamp map is passed explicitly. -/

/-- `AmountThresholdRule.evaluate` — violated when `amount > max_amount`;
`some reason` means `(True, reason)`, `none` means `(False, None)`. -/
def amountThresholdEval (max_amount amount : ℚ) : Option String :=
  if amount > max_amount then
    some s!"Transaction amount ${amount} exceeds maximum allowed ${max_amount}"
  else none

/-- `MerchantBlacklistRule.evaluate` — exact or substring match of the
upper-cased, stripped merchant name against the upper-cased blacklist. -/
def merchantBlacklistEval (blacklist : List String) (merchant_name : String) :
    Option String :=
  let normalized_merchant := strStrip (strUpper merchant_name)
  let bl := blacklist.map strUpper
  if bl.contains normalized_merchant then
    some s!"Merchant \x22{merchant_name}\x22 is on the blacklist"
  else
    match bl.find? (fun b => substrOf b normalized_merchant) with
    | some b =>
        some s!"Merchant \x22{merchant_name}\x22 matches blacklist pattern \x22{b}\x22"
    | none => none

/-- The `VelocityRule`'s mutable per-card state
(`_recent_transactions : dict[str, list[float]]`): card id to the
timestamps of recent attempts. -/
def VelocityState := List (String × List ℚ)

/-- Association-list read of a velocity entry. -/
def velLookup : VelocityState → String → Option (List ℚ)
  | [], _ => none
  | (k, v) :: rest, cid => if k = cid then some v else velLookup rest cid

/-- Association-list write of a velocity entry (Python dict assignment). -/
def velStore : VelocityState → String → List ℚ → VelocityState
  | [], cid, ts => [(cid, ts)]
  | (k, v) :: rest, cid, ts =>
    if k = cid then (cid, ts) :: rest else (k, v) :: velStore rest cid ts

/-- `VelocityRule.evaluate` — drop entries older than 60 seconds, violate
when the surviving count reaches `max_tpm` (recording nothing for the
current attempt), otherwise record the current attempt's timestamp. -/
def velocityEval (max_tpm : Nat) (current_time : ℚ) (card_id : String)
    (st : VelocityState) : Option String × VelocityState :=
  let recent := (velLookup st card_id).getD []
  let recent := recent.filter (fun t => current_time - t < 60)
  if max_tpm ≤ recent.length then
    let n := recent.length
    (some s!"Too many transactions in short period ({n} in last minute)",
     velStore st card_id recent)
  else
    (none, velStore st card_id (recent ++ [current_time]))

/-- `FraudEngine.check_transaction` specialized to the default rule list
(amount threshold, merchant blacklist, velocity — in that order), with the
velocity state threaded explicitly. The weight-`≥ 1.0000` break of the
rule loop is unrolled over this fixed list. -/
def checkTransactionDefault (max_amount : ℚ) (blacklist : List String)
    (max_tpm : Nat) (current_time : ℚ) (amount : ℚ)
    (merchant_name card_id : String) (vst : VelocityState) :
    FraudCheckResult × VelocityState :=
  let r : FraudCheckResult := {}
  match amountThresholdEval max_amount amount with
  | some reason =>
      ({ r.add_risk 1 reason with blocked := true, passed := false }, vst)
  | none =>
    match merchantBlacklistEval blacklist merchant_name with
    | some reason =>
        ({ r.add_risk 1 reason with blocked := true, passed := false }, vst)
    | none =>
      match velocityEval max_tpm current_time card_id vst with
      | (some reason, vst') => (r.add_risk (3/10) reason, vst')
      | (none, vst') => (r, vst')

/-! ## Ledger service (`finledger/app/services/ledger.py`) -/

/-- The domain errors `process_transaction` can raise. -/
inductive ProcessError where
  | fraudDetected (result : FraudCheckResult)
  | cardNotFound
  | cardFrozen (status : CardStatus)
  | insufficientFunds
deriving DecidableEq, Repr

/-- The durable store: the `cards` table (abstract id ↦ row) and the
append-only `transactions` table. -/
structure LedgerState where
  cards : List (Nat × Card)
  transactions : List Transaction
deriving DecidableEq, Repr

/-- Read a card row by id. -/
def lookupCard (card_id : Nat) : List (Nat × Card) → Option Card
  | [] => none
  | (k, c) :: rest => if k = card_id then some c else lookupCard card_id rest

/-- Write back a card row by id. -/
def updateCard : List (Nat × Card) → Nat → Card → List (Nat × Card)
  | [], _, _ => []
  | (k, c) :: rest, card_id, c' =>
    if k = card_id then (card_id, c') :: rest
    else (k, c) :: updateCard rest card_id c'

/-- `LedgerService.process_transaction`, given the fraud verdict computed
in phase 1 (fraud checks run before the lock is taken). The returned
`LedgerState` is the committed store after the call; the row lock of
phases 2–3 makes every call see the committed result of its predecessors,
so concurrent calls are exactly the sequential compositions of this
function. -/
def process_transaction (st : LedgerState) (fraud_result : FraudCheckResult)
    (card_id : Nat) (amount : ℚ) (merchant_name : String)
    (merchant_category : Option String) (description : Option String) :
    LedgerState × Except ProcessError Transaction :=
  if fraud_result.blocked then
    (st, .error (.fraudDetected fraud_result))
  else
    match lookupCard card_id st.cards with
    | none => (st, .error .cardNotFound)
    | some card =>
      if card.status ≠ CardStatus.ACTIVE then
        (st, .error (.cardFrozen card.status))
      else
        let available := card.spending_limit - card.current_balance
        if amount > available then
          let tx : Transaction :=
            { card_id := card_id
              amount := amount
              merchant_name := merchant_name
              merchant_category := merchant_category
              description := description
              status := .DECLINED
              fraud_score := some fraud_result.score
              fraud_reason := some (if fraud_result.reasons.isEmpty then
                  "Insufficient funds"
                else String.intercalate "; " fraud_result.reasons) }
          ({ st with transactions := st.transactions ++ [tx] },
           .error .insufficientFunds)
        else
          let card' := { card with
            current_balance := card.current_balance + amount }
          let status := if fraud_result.passed then
              TransactionStatus.APPROVED
            else TransactionStatus.FLAGGED
          let tx : Transaction :=
            { card_id := card_id
              amount := amount
              merchant_name := merchant_name
              merchant_category := merchant_category
              description := description
              status := status
              fraud_score := some fraud_result.score
              fraud_reason := if fraud_result.reasons.isEmpty then none
                else some (String.intercalate "; " fraud_result.reasons) }
          ({ cards := updateCard st.cards card_id card'
             transactions := st.transactions ++ [tx] },
           .ok tx)

/-- `LedgerService.create_card` — issue a new card with zero balance and
`ACTIVE` status. -/
def create_card (st : LedgerState) (id : Nat)
    (card_number cardholder_name : String) (spending_limit : ℚ) :
    LedgerState :=
  { st with
    cards := (id,
      { card_number := card_number
        cardholder_name := cardholder_name
        spending_limit := spending_limit
        current_balance := 0
        status := CardStatus.ACTIVE }) :: st.cards }

/-- `LedgerService.verify_transaction_receipt` on the fetched row — set
the receipt-verification fields and take the `APPROVED → VERIFIED` edge
when applicable. `now` is the call's `datetime.utcnow()` instant. -/
def verify_transaction_receipt (tx : Transaction) (verified : Bool)
    (now : Nat) : Transaction :=
  let tx' := { tx with
    receipt_verified := verified
    receipt_verified_at := if verified then some now else none }
  if verified ∧ tx'.status = TransactionStatus.APPROVED then
    { tx' with status := TransactionStatus.VERIFIED }
  else tx'

/-! ## Targeted receipt matching (`finledger/worker/tasks.py`) -/

/-- The parsed receipt fields the matcher consumes. -/
structure Receipt where
  merchant_name : String
  amount : ℚ
deriving DecidableEq, Repr

/-- The spec's exact-arithmetic reading of `match_receipt`'s amount test,
`|tx.amount - receipt.amount| < 1.00` on the `Decimal` values. The code
executes the test after coercing both amounts to IEEE doubles —
`amountMatchFloat` below is that bit-faithful version; the two disagree
exactly on pairs whose exact difference straddles `1.00` only after
double rounding (e.g. `1.13` vs `0.13`). -/
def amountMatch (tx_amount rcpt_amount : ℚ) : Bool :=
  |tx_amount - rcpt_amount| < 1

/-- `match_receipt`'s merchant test: case-insensitive substring
containment in either direction. -/
def merchantMatch (rcpt_merchant tx_merchant : String) : Bool :=
  substrOf (strUpper rcpt_merchant) (strUpper tx_merchant) ||
  substrOf (strUpper tx_merchant) (strUpper rcpt_merchant)

/-- `match_receipt`'s confidence from the two boolean tests. -/
def matchConfidence (amount_match merchant_match : Bool) : ℚ :=
  if amount_match && merchant_match then 95/100
  else if amount_match || merchant_match then 7/10
  else 3/10

/-- The targeted branch of `match_receipt` (a `transaction_id` was
supplied and its row exists), with the amount test in exact arithmetic
(`amountMatch`): compute the confidence and, when it is `≥ 0.80`, verify
the transaction through `ledger_service.verify_transaction_receipt`.
Returns the committed row and the confidence.
`match_receipt_targeted_float` below is the same branch with the amount
test executed on doubles exactly as the code does. -/
def match_receipt_targeted (rcpt : Receipt) (tx : Transaction) (now : Nat) :
    Transaction × ℚ :=
  let amount_match := amountMatch tx.amount rcpt.amount
  let merchant_match := merchantMatch rcpt.merchant_name tx.merchant_name
  let match_confidence := matchConfidence amount_match merchant_match
  if match_confidence ≥ 8/10 then
    (verify_transaction_receipt tx true now, match_confidence)
  else
    (tx, match_confidence)

/-! ### IEEE-754 binary64 model for the receipt matcher

`match_receipt` computes
`amount_match = abs(float(tx.amount) - float(receipt.amount)) < 1.0`:
both `Decimal`s are coerced to doubles and subtracted in double
arithmetic. For the normal finite range (every monetary amount in scope),
CPython's `float(Decimal)` and the IEEE subtraction both round their
exact rational value to the nearest representable `m * 2 ^ e` with
`|m| < 2 ^ 53`, ties to even — which is what `float64round` computes. -/

/-- Round a scaled significand to the nearest integer, ties to even. -/
def float64mantissa (scaled : ℚ) : ℤ :=
  if scaled - ⌊scaled⌋ < 1/2 then ⌊scaled⌋
  else if 1/2 < scaled - ⌊scaled⌋ then ⌊scaled⌋ + 1
  else if ⌊scaled⌋ % 2 = 0 then ⌊scaled⌋ else ⌊scaled⌋ + 1

/-- IEEE-754 binary64 round-to-nearest, ties-to-even, for values in the
normal range; `0` maps to `0`. -/
def float64round (q : ℚ) : ℚ :=
  if q = 0 then 0
  else
    (if q < 0 then (-1 : ℚ) else 1) *
      (float64mantissa (|q| * 2 ^ (-(Int.log 2 |q| - 52))) : ℚ) *
      2 ^ (Int.log 2 |q| - 52)

/-- `match_receipt`'s amount test as executed:
`abs(float(tx.amount) - float(receipt.amount)) < 1.0` — both `Decimal`s
rounded to doubles, the difference rounded again by the IEEE subtraction,
the comparison with `1.0` exact. -/
def amountMatchFloat (tx_amount rcpt_amount : ℚ) : Bool :=
  |float64round (float64round tx_amount - float64round rcpt_amount)| < 1

/-- The targeted branch of `match_receipt` with the amount test executed
in IEEE double arithmetic exactly as the code does. -/
def match_receipt_targeted_float (rcpt : Receipt) (tx : Transaction)
    (now : Nat) : Transaction × ℚ :=
  let amount_match := amountMatchFloat tx.amount rcpt.amount
  let merchant_match := merchantMatch rcpt.merchant_name tx.merchant_name
  let match_confidence := matchConfidence amount_match merchant_match
  if match_confidence ≥ 8/10 then
    (verify_transaction_receipt tx true now, match_confidence)
  else
    (tx, match_confidence)

/-! ## Reachable committed states

`Reachable` closes the empty store under the two mutating core operations:
`create_card` (the database check constraint `check_limit_positive` admits
only positive limits) and `process_transaction` (the schema layer admits
only positive amounts, matching `check_amount_positive`). -/

/-- Committed states reachable by the core operations. -/
inductive Reachable : LedgerState → Prop
  | empty : Reachable ⟨[], []⟩
  | create {st : LedgerState} (id : Nat) (num name : String) (limit : ℚ) :
      Reachable st → 0 < limit → Reachable (create_card st id num name limit)
  | process {st : LedgerState} (v : FraudCheckResult) (id : Nat) (amount : ℚ)
      (m : String) (mc d : Option String) :
      Reachable st → 0 < amount →
      Reachable (process_transaction st v id amount m mc d).1

/-- The spec's serialization scenario: a card with limit `1000.00` and
balance `900.00`. -/
def scenario_card : Card :=
  { card_number := "4111111111111111", cardholder_name := "Alice"
    spending_limit := 1000, current_balance := 900, status := .ACTIVE }

/-- The scenario's store: the one card, no transactions yet. -/
def scenario_state : LedgerState := ⟨[(7, scenario_card)], []⟩

/-- A parsed receipt agreeing with `tx0` on amount and merchant. -/
def rcpt0 : Receipt := ⟨"OFFICE_SUPPLIES_INC", 14999/100⟩

/-- An APPROVED transaction matching `rcpt0`. -/
def tx0 : Transaction :=
  { card_id := 1, amount := 14999/100
    merchant_name := "OFFICE_SUPPLIES_INC", status := .APPROVED }

/-! ## Helper lemmas -/

/-- Reading a card row by id finds an entry of the table. -/
theorem lookupCard_mem {card_id : Nat} {c : Card} {l : List (Nat × Card)}
    (h : lookupCard card_id l = some c) : (card_id, c) ∈ l := by
  induction l with
  | nil => simp [lookupCard] at h
  | cons q rest ih =>
    obtain ⟨k, c'⟩ := q
    by_cases hk : k = card_id
    · subst hk
      simp [lookupCard] at h
      simp [h]
    · simp [lookupCard, hk] at h
      exact List.mem_cons_of_mem _ (ih h)

/-- Every row of an updated card table is the written row or an old row. -/
theorem mem_updateCard {p : Nat × Card} {card_id : Nat} {c' : Card}
    {l : List (Nat × Card)} (h : p ∈ updateCard l card_id c') :
    p = (card_id, c') ∨ p ∈ l := by
  induction l with
  | nil => simp [updateCard] at h
  | cons q rest ih =>
    obtain ⟨k, c⟩ := q
    by_cases hk : k = card_id
    · subst hk
      simp only [updateCard, eq_self_iff_true, if_true, List.mem_cons] at h
      exact h.imp id (List.mem_cons_of_mem _)
    · simp only [updateCard, if_neg hk, List.mem_cons] at h
      rcases h with h | h
      · exact Or.inr (by simp [h])
      · exact (ih h).imp id (List.mem_cons_of_mem _)

/-- `process_transaction` either leaves the card table unchanged or, when
the funds check passed, writes back the charged card. -/
theorem process_cards_cases (st : LedgerState) (v : FraudCheckResult)
    (card_id : Nat) (amount : ℚ) (m : String) (mc d : Option String) :
    (process_transaction st v card_id amount m mc d).1.cards = st.cards ∨
    ∃ card, lookupCard card_id st.cards = some card ∧
      amount ≤ card.spending_limit - card.current_balance ∧
      (process_transaction st v card_id amount m mc d).1.cards =
        updateCard st.cards card_id
          { card with current_balance := card.current_balance + amount } := by
  unfold process_transaction
  by_cases hb : v.blocked
  · simp [hb]
  · simp only [hb, Bool.false_eq_true, if_false]
    cases hc : lookupCard card_id st.cards with
    | none => simp
    | some card =>
      by_cases hs : card.status ≠ CardStatus.ACTIVE
      · simp [hs]
      · by_cases hgt : amount > card.spending_limit - card.current_balance
        · simp [hs, hgt]
        · right
          exact ⟨card, rfl, not_lt.mp hgt, by simp [hs, hgt]⟩

/-- Computation of `process_transaction` on the funds-available path. -/
theorem processTransaction_success_eq (st : LedgerState)
    (v : FraudCheckResult) (card : Card) (card_id : Nat) (amount : ℚ)
    (merchant_name : String) (mc d : Option String)
    (hb : v.blocked = false)
    (hc : lookupCard card_id st.cards = some card)
    (ha : card.status = CardStatus.ACTIVE)
    (hle : amount ≤ card.spending_limit - card.current_balance) :
    process_transaction st v card_id amount merchant_name mc d =
      ({ cards := updateCard st.cards card_id
           { card with current_balance := card.current_balance + amount }
         transactions := st.transactions ++
           [{ card_id := card_id
              amount := amount
              merchant_name := merchant_name
              merchant_category := mc
              description := d
              status := if v.passed then .APPROVED else .FLAGGED
              fraud_score := some v.score
              fraud_reason := if v.reasons.isEmpty then none
                else some (String.intercalate "; " v.reasons) }] },
       .ok { card_id := card_id
             amount := amount
             merchant_name := merchant_name
             merchant_category := mc
             description := d
             status := if v.passed then .APPROVED else .FLAGGED
             fraud_score := some v.score
             fraud_reason := if v.reasons.isEmpty then none
               else some (String.intercalate "; " v.reasons) }) := by
  simp [process_transaction, hb, hc, ha, not_lt.mpr hle]

/-- Computation of `process_transaction` on the insufficient-funds path. -/
theorem processTransaction_insufficient_eq (st : LedgerState)
    (v : FraudCheckResult) (card : Card) (card_id : Nat) (amount : ℚ)
    (merchant_name : String) (mc d : Option String)
    (hb : v.blocked = false)
    (hc : lookupCard card_id st.cards = some card)
    (ha : card.status = CardStatus.ACTIVE)
    (hgt : amount > card.spending_limit - card.current_balance) :
    process_transaction st v card_id amount merchant_name mc d =
      ({ cards := st.cards
         transactions := st.transactions ++
           [{ card_id := card_id
              amount := amount
              merchant_name := merchant_name
              merchant_category := mc
              description := d
              status := .DECLINED
              fraud_score := some v.score
              fraud_reason := some (if v.reasons.isEmpty then
                  "Insufficient funds"
                else String.intercalate "; " v.reasons) }] },
       .error .insufficientFunds) := by
  simp [process_transaction, hb, hc, ha, hgt]

/-- Fields of a verified transaction: `verify_transaction_receipt` keeps
amount and merchant, sets the receipt fields, and takes the
`APPROVED → VERIFIED` edge exactly when the row was `APPROVED`. -/
theorem verify_receipt_fields (tx : Transaction) (now : Nat) :
    (verify_transaction_receipt tx true now).amount = tx.amount ∧
    (verify_transaction_receipt tx true now).merchant_name =
      tx.merchant_name ∧
    (verify_transaction_receipt tx true now).receipt_verified = true ∧
    (verify_transaction_receipt tx true now).receipt_verified_at =
      some now ∧
    (verify_transaction_receipt tx true now).status =
      (if tx.status = .APPROVED then .VERIFIED else tx.status) := by
  by_cases hst : tx.status = TransactionStatus.APPROVED <;>
  simp [verify_transaction_receipt, hst]

/-- Computation of targeted matching when both the amount and the merchant
tests succeed: confidence `0.95` and the row is verified. -/
theorem match_receipt_targeted_of_matches (rcpt : Receipt)
    (tx : Transaction) (now : Nat)
    (ham : amountMatch tx.amount rcpt.amount = true)
    (hmm : merchantMatch rcpt.merchant_name tx.merchant_name = true) :
    match_receipt_targeted rcpt tx now =
      (verify_transaction_receipt tx true now, 95/100) := by
  simp only [match_receipt_targeted, matchConfidence, ham, hmm,
    Bool.and_self, if_true]
  rw [if_pos (by norm_num)]

/-- Saturation of `runRules`: starting from a non-negative score and an
unblocked accumulator, a blocked outcome over non-negative rule weights
carries score `1`, `passed = false`, and at least one reason. -/
theorem runRules_blocked_saturates (rules : List RuleSpec) :
    ∀ r : FraudCheckResult, (∀ ru ∈ rules, 0 ≤ ru.weight) → 0 ≤ r.score →
      r.blocked = false → (runRules r rules).blocked = true →
      (runRules r rules).score = 1 ∧ (runRules r rules).passed = false ∧
      (runRules r rules).reasons ≠ [] := by
  induction rules with
  | nil =>
    intro r _ _ hbf hbt
    rw [runRules] at hbt
    rw [hbt] at hbf
    cases hbf
  | cons rule rest ih =>
    intro r hw hs hbf hbt
    have hw0 : 0 ≤ rule.weight := hw rule (List.mem_cons_self _ _)
    have hwrest : ∀ ru ∈ rest, 0 ≤ ru.weight :=
      fun ru hru => hw ru (List.mem_cons_of_mem _ hru)
    cases hout : rule.outcome with
    | raised =>
      simp only [runRules, hout] at hbt ⊢
      exact ih r hwrest hs hbf hbt
    | eval violated reason =>
      cases violated with
      | false =>
        simp only [runRules, hout, Bool.false_eq_true, if_false] at hbt ⊢
        exact ih r hwrest hs hbf hbt
      | true =>
        by_cases h1 : rule.weight ≥ 1
        · simp only [runRules, hout, if_true, if_pos h1] at hbt ⊢
          refine ⟨?_, by simp, by simp [FraudCheckResult.add_risk]⟩
          show (r.add_risk rule.weight reason).score = 1
          simp only [FraudCheckResult.add_risk]
          exact min_eq_left (by linarith)
        · simp only [runRules, hout, if_true, if_neg h1] at hbt ⊢
          have hs' : 0 ≤ (r.add_risk rule.weight reason).score := by
            simp only [FraudCheckResult.add_risk]
            exact le_min (by norm_num) (by linarith)
          have hbf' : (r.add_risk rule.weight reason).blocked = false := hbf
          exact ih _ hwrest hs' hbf' hbt

/-- Characterization of `Int.log 2` on positive rationals by the binade
bounds. -/
theorem log2_eq_of_bounds {r : ℚ} {e : ℤ} (hr : 0 < r)
    (h1 : (2:ℚ) ^ e ≤ r) (h2 : r < (2:ℚ) ^ (e + 1)) : Int.log 2 r = e := by
  have hle : e ≤ Int.log 2 r := by
    rw [← Int.zpow_le_iff_le_log one_lt_two hr]
    exact_mod_cast h1
  have hlt : Int.log 2 r < e + 1 := by
    rw [← Int.lt_zpow_iff_log_lt one_lt_two hr]
    exact_mod_cast h2
  omega

/-- Evaluation of `float64round` on a positive value, given its binade
`[2 ^ (e + 52), 2 ^ (e + 53))` and the integer part `n0` of the scaled
significand. -/
theorem float64round_eval {q : ℚ} {e n0 : ℤ} (hq : 0 < q)
    (hlow : (2:ℚ) ^ (e + 52) ≤ q) (hhigh : q < (2:ℚ) ^ (e + 53))
    (hfl : (n0 : ℚ) ≤ q * 2 ^ (-e)) (hfh : q * 2 ^ (-e) < (n0 : ℚ) + 1) :
    float64round q =
      (if q * 2 ^ (-e) - (n0 : ℚ) < 1/2 then (n0 : ℚ)
       else if 1/2 < q * 2 ^ (-e) - (n0 : ℚ) then (n0 : ℚ) + 1
       else if n0 % 2 = 0 then (n0 : ℚ) else (n0 : ℚ) + 1) * 2 ^ e := by
  have habs : |q| = q := abs_of_pos hq
  have hlog : Int.log 2 q = e + 52 := by
    refine log2_eq_of_bounds hq hlow ?_
    rw [show e + 52 + 1 = e + 53 by ring]
    exact hhigh
  have hfloor : ⌊q * 2 ^ (-e)⌋ = n0 := by
    rw [Int.floor_eq_iff]
    exact ⟨hfl, by exact_mod_cast hfh⟩
  have harg : |q| * 2 ^ (-(Int.log 2 |q| - 52)) = q * 2 ^ (-e) := by
    rw [habs, hlog, show -(e + 52 - 52) = -e by ring]
  have hpow : (2:ℚ) ^ (Int.log 2 |q| - 52) = 2 ^ e := by
    rw [habs, hlog, show e + 52 - 52 = e by ring]
  unfold float64round float64mantissa
  rw [if_neg (ne_of_gt hq), if_neg (not_lt.mpr hq.le), harg, hpow, hfloor,
    one_mul]
  split_ifs <;> push_cast <;> ring

/-- The boundary pair `1.13` / `0.13`: the doubles round to
`5089067578928660 * 2 ^ (-52)` and `4683743612465316 * 2 ^ (-55)`, whose
difference `(2 ^ 53 - 1) / 2 ^ 53` is exactly representable and below
`1.0`, so the executed amount test passes although the exact difference
is exactly `1.00`. -/
theorem boundary_pair_float_matches :
    amountMatchFloat (113/100) (13/100) = true := by
  have e1 : float64round (113/100) = (5089067578928660:ℚ) * 2 ^ (-52:ℤ) := by
    rw [@float64round_eval (113/100) (-52) 5089067578928660 (by norm_num)
      (by norm_num) (by norm_num) (by norm_num) (by norm_num)]
    norm_num
  have e2 : float64round (13/100) = (4683743612465316:ℚ) * 2 ^ (-55:ℤ) := by
    rw [@float64round_eval (13/100) (-55) 4683743612465315 (by norm_num)
      (by norm_num) (by norm_num) (by norm_num) (by norm_num)]
    norm_num
  have e3 : float64round ((9007199254740991:ℚ)/9007199254740992) =
      9007199254740991/9007199254740992 := by
    rw [@float64round_eval ((9007199254740991:ℚ)/9007199254740992) (-53)
      9007199254740991 (by norm_num) (by norm_num) (by norm_num)
      (by norm_num) (by norm_num)]
    norm_num
  simp only [amountMatchFloat, decide_eq_true_eq, e1, e2]
  rw [show (5089067578928660:ℚ) * 2 ^ (-52:ℤ) -
      4683743612465316 * 2 ^ (-55:ℤ) =
      9007199254740991/9007199254740992 by norm_num]
  rw [e3, abs_of_nonneg (by norm_num)]
  norm_num

/-- Equal amounts always pass the executed amount test: the two doubles
coincide and the subtraction yields exactly `0`. -/
theorem equal_amounts_float_match (a : ℚ) :
    amountMatchFloat a a = true := by
  simp only [amountMatchFloat, decide_eq_true_eq, sub_self]
  rw [show float64round 0 = 0 from by simp [float64round], abs_zero]
  norm_num

/-! ## Claims -/

/-- C1. Per-account processing is serialized by the row lock, so two
concurrent `100.00` attempts against the scenario card (limit `1000.00`,
balance `900.00`) execute as a sequential composition in some order: for
any two non-blocked verdicts, the first attempt commits (APPROVED or
FLAGGED per the verdict's `passed`), leaving balance `1000.00`; the second
observes the committed balance, fails with insufficient funds, appends a
DECLINED transaction, and leaves the balance at `1000.00`. -/
theorem serialized_concurrent_attempts (v1 v2 : FraudCheckResult)
    (h1 : v1.blocked = false) (h2 : v2.blocked = false) :
    ∃ tx1 tx2 : Transaction,
      (process_transaction scenario_state v1 7 100 "SHOP_A" none none).2 =
        .ok tx1 ∧
      tx1.status = (if v1.passed then .APPROVED else .FLAGGED) ∧
      lookupCard 7
          (process_transaction scenario_state v1 7 100 "SHOP_A" none
            none).1.cards =
        some { scenario_card with current_balance := 1000 } ∧
      (process_transaction
          (process_transaction scenario_state v1 7 100 "SHOP_A" none none).1
          v2 7 100 "SHOP_B" none none).2 = .error .insufficientFunds ∧
      lookupCard 7
          (process_transaction
            (process_transaction scenario_state v1 7 100 "SHOP_A" none
              none).1 v2 7 100 "SHOP_B" none none).1.cards =
        some { scenario_card with current_balance := 1000 } ∧
      (process_transaction
          (process_transaction scenario_state v1 7 100 "SHOP_A" none none).1
          v2 7 100 "SHOP_B" none none).1.transactions =
        (process_transaction scenario_state v1 7 100 "SHOP_A" none
          none).1.transactions ++ [tx2] ∧
      tx2.status = .DECLINED := by
  have hlk1 : lookupCard 7 scenario_state.cards = some scenario_card := by
    simp [scenario_state, lookupCard]
  have e1 := processTransaction_success_eq scenario_state v1 scenario_card 7
    100 "SHOP_A" none none h1 hlk1 rfl (by norm_num [scenario_card])
  have hcards1 : (process_transaction scenario_state v1 7 100 "SHOP_A" none
      none).1.cards = [(7, { scenario_card with current_balance := 1000 })] := by
    rw [e1]
    norm_num [scenario_state, scenario_card, updateCard]
  have hlk2 : lookupCard 7 (process_transaction scenario_state v1 7 100
      "SHOP_A" none none).1.cards =
      some { scenario_card with current_balance := 1000 } := by
    rw [hcards1]; simp [lookupCard]
  have e2 := processTransaction_insufficient_eq
    (process_transaction scenario_state v1 7 100 "SHOP_A" none none).1 v2
    { scenario_card with current_balance := 1000 } 7 100 "SHOP_B" none none
    h2 hlk2 rfl (by norm_num [scenario_card])
  refine ⟨_, _, by rw [e1], rfl, hlk2, by rw [e2], ?_, by rw [e2], rfl⟩
  rw [e2]
  exact hlk2

/-- Witness for C1 at the all-clear verdict on both attempts. -/
theorem serialized_concurrent_attempts_witness :
    ∃ tx1 tx2 : Transaction,
      (process_transaction scenario_state {} 7 100 "SHOP_A" none none).2 =
        .ok tx1 ∧
      tx1.status = (if ({} : FraudCheckResult).passed then .APPROVED
        else .FLAGGED) ∧
      lookupCard 7
          (process_transaction scenario_state {} 7 100 "SHOP_A" none
            none).1.cards =
        some { scenario_card with current_balance := 1000 } ∧
      (process_transaction
          (process_transaction scenario_state {} 7 100 "SHOP_A" none none).1
          {} 7 100 "SHOP_B" none none).2 = .error .insufficientFunds ∧
      lookupCard 7
          (process_transaction
            (process_transaction scenario_state {} 7 100 "SHOP_A" none
              none).1 {} 7 100 "SHOP_B" none none).1.cards =
        some { scenario_card with current_balance := 1000 } ∧
      (process_transaction
          (process_transaction scenario_state {} 7 100 "SHOP_A" none none).1
          {} 7 100 "SHOP_B" none none).1.transactions =
        (process_transaction scenario_state {} 7 100 "SHOP_A" none
          none).1.transactions ++ [tx2] ∧
      tx2.status = .DECLINED :=
  serialized_concurrent_attempts {} {} rfl rfl

/-- C2. Every committed state reachable by `create_card` (positive limit)
and `process_transaction` calls with positive amounts keeps every card row
at `0 ≤ current_balance ≤ spending_limit`, and the reported
`available_balance` equals `spending_limit - current_balance`. -/
theorem reachable_balance_invariant (st : LedgerState) (h : Reachable st) :
    ∀ p ∈ st.cards, 0 ≤ p.2.current_balance ∧
      p.2.current_balance ≤ p.2.spending_limit ∧
      p.2.available_balance = p.2.spending_limit - p.2.current_balance := by
  induction h with
  | empty => intro p hp; simp at hp
  | create id num name limit hst hpos ih =>
    intro p hp
    simp only [create_card, List.mem_cons] at hp
    rcases hp with rfl | hp
    · exact ⟨le_refl 0, hpos.le, rfl⟩
    · exact ih p hp
  | process v id amount m mc d hst hpos ih =>
    intro p hp
    rcases process_cards_cases _ v id amount m mc d with
      hsame | ⟨card, hc, hle, heq⟩
    · rw [hsame] at hp; exact ih p hp
    · rw [heq] at hp
      rcases mem_updateCard hp with rfl | hp
      · have hold := ih _ (lookupCard_mem hc)
        dsimp only at hold ⊢
        obtain ⟨hb1, hb2, -⟩ := hold
        exact ⟨by linarith, by linarith, rfl⟩
      · exact ih p hp

/-- Witness for C2 at a freshly issued card with limit `500`. -/
theorem reachable_balance_invariant_witness :
    0 ≤ ((1 : Nat),
        ({ card_number := "4111111111111111", cardholder_name := "Alice"
           spending_limit := 500, current_balance := 0
           status := .ACTIVE } : Card)).2.current_balance ∧
    ((1 : Nat),
        ({ card_number := "4111111111111111", cardholder_name := "Alice"
           spending_limit := 500, current_balance := 0
           status := .ACTIVE } : Card)).2.current_balance ≤
      ((1 : Nat),
        ({ card_number := "4111111111111111", cardholder_name := "Alice"
           spending_limit := 500, current_balance := 0
           status := .ACTIVE } : Card)).2.spending_limit ∧
    ((1 : Nat),
        ({ card_number := "4111111111111111", cardholder_name := "Alice"
           spending_limit := 500, current_balance := 0
           status := .ACTIVE } : Card)).2.available_balance =
      ((1 : Nat),
        ({ card_number := "4111111111111111", cardholder_name := "Alice"
           spending_limit := 500, current_balance := 0
           status := .ACTIVE } : Card)).2.spending_limit -
      ((1 : Nat),
        ({ card_number := "4111111111111111", cardholder_name := "Alice"
           spending_limit := 500, current_balance := 0
           status := .ACTIVE } : Card)).2.current_balance :=
  reachable_balance_invariant
    (create_card ⟨[], []⟩ 1 "4111111111111111" "Alice" 500)
    (Reachable.create 1 "4111111111111111" "Alice" 500 Reachable.empty
      (by norm_num))
    _ (by simp [create_card])

/-- C3. A non-blocked verdict against an existing ACTIVE card with
`amount ≤ limit - balance` increments the balance by exactly `amount` and
appends a transaction carrying the verdict's score and reasons, FLAGGED
when the verdict's `passed` is false and APPROVED otherwise. -/
theorem approved_attempt_moves_funds (st : LedgerState)
    (v : FraudCheckResult) (card : Card) (card_id : Nat) (amount : ℚ)
    (merchant_name : String) (mc d : Option String)
    (hb : v.blocked = false)
    (hc : lookupCard card_id st.cards = some card)
    (ha : card.status = CardStatus.ACTIVE)
    (hle : amount ≤ card.spending_limit - card.current_balance) :
    process_transaction st v card_id amount merchant_name mc d =
      ({ cards := updateCard st.cards card_id
           { card with current_balance := card.current_balance + amount }
         transactions := st.transactions ++
           [{ card_id := card_id
              amount := amount
              merchant_name := merchant_name
              merchant_category := mc
              description := d
              status := if v.passed then .APPROVED else .FLAGGED
              fraud_score := some v.score
              fraud_reason := if v.reasons.isEmpty then none
                else some (String.intercalate "; " v.reasons) }] },
       .ok { card_id := card_id
             amount := amount
             merchant_name := merchant_name
             merchant_category := mc
             description := d
             status := if v.passed then .APPROVED else .FLAGGED
             fraud_score := some v.score
             fraud_reason := if v.reasons.isEmpty then none
               else some (String.intercalate "; " v.reasons) }) :=
  processTransaction_success_eq st v card card_id amount merchant_name mc d
    hb hc ha hle

/-- Witness for C3: a `100.00` charge against the `1000.00`-limit card at
balance `900.00` with the all-clear verdict. -/
theorem approved_attempt_moves_funds_witness :
    process_transaction
        ⟨[(1, { card_number := "4111111111111111", cardholder_name := "A",
                spending_limit := 1000, current_balance := 900,
                status := .ACTIVE })], []⟩
        {} 1 100 "SHOP" none none =
      (⟨[(1, { card_number := "4111111111111111", cardholder_name := "A",
               spending_limit := 1000, current_balance := 1000,
               status := .ACTIVE })],
        [{ card_id := 1, amount := 100, merchant_name := "SHOP",
           status := .APPROVED, fraud_score := some 0 }]⟩,
       .ok { card_id := 1, amount := 100, merchant_name := "SHOP",
             status := .APPROVED, fraud_score := some 0 }) := by
  have h := approved_attempt_moves_funds
    ⟨[(1, { card_number := "4111111111111111", cardholder_name := "A",
            spending_limit := 1000, current_balance := 900,
            status := .ACTIVE })], []⟩
    {} { card_number := "4111111111111111", cardholder_name := "A",
         spending_limit := 1000, current_balance := 900, status := .ACTIVE }
    1 100 "SHOP" none none rfl (by simp [lookupCard]) rfl (by norm_num)
  simpa [updateCard, show (900:ℚ) + 100 = 1000 by norm_num] using h

/-- C4. A blocked verdict fails the call with the fraud error carrying the
verdict, and the store is untouched: no transaction row, no balance
change. -/
theorem blocked_attempt_no_side_effects (st : LedgerState)
    (v : FraudCheckResult) (card_id : Nat) (amount : ℚ)
    (merchant_name : String) (mc d : Option String)
    (hb : v.blocked = true) :
    process_transaction st v card_id amount merchant_name mc d =
      (st, .error (.fraudDetected v)) := by
  simp [process_transaction, hb]

/-- Witness for C4 at a concrete blocked verdict and empty store. -/
theorem blocked_attempt_no_side_effects_witness :
    process_transaction ⟨[], []⟩
        { passed := false, score := 1, reasons := ["r"], blocked := true }
        1 6000 "M" none none =
      (⟨[], []⟩, .error (.fraudDetected
        { passed := false, score := 1, reasons := ["r"], blocked := true })) :=
  blocked_attempt_no_side_effects _ _ _ _ _ _ _ rfl

/-- C5. On an existing ACTIVE card, a non-blocked verdict with
`amount > limit - balance` appends a DECLINED transaction carrying the
verdict's score and reasons (falling back to "Insufficient funds" when the
verdict produced none), leaves every balance unchanged, and only then
fails with the insufficient-funds error. -/
theorem insufficient_funds_records_declined_transaction (st : LedgerState)
    (v : FraudCheckResult) (card : Card) (card_id : Nat) (amount : ℚ)
    (merchant_name : String) (mc d : Option String)
    (hb : v.blocked = false)
    (hc : lookupCard card_id st.cards = some card)
    (ha : card.status = CardStatus.ACTIVE)
    (hgt : amount > card.spending_limit - card.current_balance) :
    process_transaction st v card_id amount merchant_name mc d =
      ({ cards := st.cards
         transactions := st.transactions ++
           [{ card_id := card_id
              amount := amount
              merchant_name := merchant_name
              merchant_category := mc
              description := d
              status := .DECLINED
              fraud_score := some v.score
              fraud_reason := some (if v.reasons.isEmpty then
                  "Insufficient funds"
                else String.intercalate "; " v.reasons) }] },
       .error .insufficientFunds) :=
  processTransaction_insufficient_eq st v card card_id amount merchant_name
    mc d hb hc ha hgt

/-- Witness for C5: a `200.00` charge against the scenario card (available
`100.00`) with the all-clear verdict. -/
theorem insufficient_funds_records_declined_transaction_witness :
    process_transaction ⟨[(7, scenario_card)], []⟩ {} 7 200 "SHOP" none
        none =
      (⟨[(7, scenario_card)],
        [{ card_id := 7, amount := 200, merchant_name := "SHOP",
           status := .DECLINED, fraud_score := some 0,
           fraud_reason := some "Insufficient funds" }]⟩,
       .error .insufficientFunds) := by
  have h := insufficient_funds_records_declined_transaction
    ⟨[(7, scenario_card)], []⟩ {} scenario_card 7 200 "SHOP" none none rfl
    (by simp [lookupCard]) rfl (by norm_num [scenario_card])
  simpa using h

/-- C6. Step semantics of the rule loop: rules run in list order; a
raising rule is skipped without changing the verdict; a non-violated rule
changes nothing; a violated rule of weight `< 1` adds its weight (capped
at `1`) and its reason and evaluation continues; a violated rule of weight
`≥ 1` additionally sets `blocked = true`, `passed = false` and stops
evaluation; `add_risk` caps the score at `1`, appends the reason, and
clears `passed` exactly once the capped score reaches `0.70`. -/
theorem fraud_engine_rule_semantics :
    (∀ (r : FraudCheckResult) (w : ℚ) (rest : List RuleSpec),
       runRules r (⟨w, .raised⟩ :: rest) = runRules r rest) ∧
    (∀ (r : FraudCheckResult) (w : ℚ) (reason : String)
       (rest : List RuleSpec),
       runRules r (⟨w, .eval false reason⟩ :: rest) = runRules r rest) ∧
    (∀ (r : FraudCheckResult) (w : ℚ) (reason : String)
       (rest : List RuleSpec),
       w < 1 → runRules r (⟨w, .eval true reason⟩ :: rest) =
         runRules (r.add_risk w reason) rest) ∧
    (∀ (r : FraudCheckResult) (w : ℚ) (reason : String)
       (rest : List RuleSpec),
       1 ≤ w → runRules r (⟨w, .eval true reason⟩ :: rest) =
         { r.add_risk w reason with blocked := true, passed := false }) ∧
    (∀ (r : FraudCheckResult) (w : ℚ) (reason : String),
       (r.add_risk w reason).score = min 1 (r.score + w) ∧
       (r.add_risk w reason).reasons = r.reasons ++ [reason] ∧
       (r.add_risk w reason).passed =
         (if min 1 (r.score + w) ≥ 7/10 then false else r.passed)) := by
  refine ⟨fun r w rest => rfl, fun r w reason rest => rfl, ?_, ?_,
    fun r w reason => ⟨rfl, rfl, rfl⟩⟩
  · intro r w reason rest hw
    simp [runRules, not_le.mpr hw]
  · intro r w reason rest hw
    simp [runRules, hw]

/-- Witness for C6: a weight-`1` violation blocks and stops before a
pending velocity rule. -/
theorem fraud_engine_rule_semantics_witness :
    runRules {} [⟨1, .eval true "over limit"⟩, ⟨3/10, .eval true "velocity"⟩] =
      { FraudCheckResult.add_risk {} 1 "over limit" with
        blocked := true, passed := false } :=
  fraud_engine_rule_semantics.2.2.2.1 {} 1 "over limit"
    [⟨3/10, .eval true "velocity"⟩] (le_refl 1)

/-- C7. Whenever the default engine's verdict is blocked (only the two
hard-block rules, amount threshold and merchant denylist, can block), the
velocity rule's per-card state is returned unchanged: no timestamp is
recorded for the blocked attempt. -/
theorem hard_block_leaves_velocity_state (max_amount : ℚ)
    (blacklist : List String) (max_tpm : Nat) (current_time amount : ℚ)
    (merchant_name card_id : String) (vst : VelocityState)
    (hb : (checkTransactionDefault max_amount blacklist max_tpm current_time
      amount merchant_name card_id vst).1.blocked = true) :
    (checkTransactionDefault max_amount blacklist max_tpm current_time
      amount merchant_name card_id vst).2 = vst := by
  unfold checkTransactionDefault at hb ⊢
  cases h1 : amountThresholdEval max_amount amount with
  | some r1 => simp [h1]
  | none =>
    cases h2 : merchantBlacklistEval blacklist merchant_name with
    | some r2 => simp [h1, h2]
    | none =>
      simp only [h1, h2] at hb
      cases h3 : velocityEval max_tpm current_time card_id vst with
      | mk o vst' =>
        cases o <;> simp [h3, FraudCheckResult.add_risk] at hb

/-- Witness for C7: a `6000.00` attempt against the default `5000.00`
ceiling leaves a non-trivial velocity state untouched. -/
theorem hard_block_leaves_velocity_state_witness :
    (checkTransactionDefault 5000 ["FRAUD_CORP"] 10 0 6000 "ACME" "card-1"
      [("card-1", [-10])]).2 = [("card-1", [-10])] :=
  hard_block_leaves_velocity_state 5000 ["FRAUD_CORP"] 10 0 6000 "ACME"
    "card-1" [("card-1", [-10])]
    (by norm_num [checkTransactionDefault, amountThresholdEval])

/-- C8 counterexample. At tx.amount = 1.13, receipt.amount = 0.13 and
identical merchants, exactly one of the claim's two conditions holds (the
exact amount difference is exactly 1.00, the merchant test holds), so the
claim predicts confidence 0.70 and no verification — but the executed
double-arithmetic amount test passes, the program computes confidence
0.95 and verifies the transaction. -/
theorem targeted_match_exact_boundary_counterexample :
    ¬ (|(113:ℚ)/100 - 13/100| < 1) ∧
    merchantMatch "SHOP" "SHOP" = true ∧
    (match_receipt_targeted_float ⟨"SHOP", 13/100⟩
        { card_id := 1, amount := 113/100, merchant_name := "SHOP"
          status := .APPROVED } 0).2 = 95/100 ∧
    (match_receipt_targeted_float ⟨"SHOP", 13/100⟩
        { card_id := 1, amount := 113/100, merchant_name := "SHOP"
          status := .APPROVED } 0).1.receipt_verified = true := by
  have ham := boundary_pair_float_matches
  have hm : merchantMatch "SHOP" "SHOP" = true := by decide
  refine ⟨by rw [abs_of_nonneg (by norm_num)]; norm_num, hm, ?_, ?_⟩
  · norm_num [match_receipt_targeted_float, matchConfidence, ham, hm]
  · norm_num [match_receipt_targeted_float, matchConfidence, ham, hm,
      verify_transaction_receipt]

/-- C8 (amended). Targeted reconciliation computes confidence `0.95` when
both the executed amount test — `|float(tx.amount) − float(receipt.amount)|
< 1.0` in IEEE double arithmetic, as the code's `float()` coercions make
it — and the case-insensitive either-direction merchant substring test
hold, `0.70` when exactly one holds, `0.30` when neither; the confidence
reaches `0.80` exactly when both hold, and exactly then the row is
updated with `receipt_verified = true` and `receipt_verified_at` set, the
status becoming VERIFIED only when it was APPROVED; otherwise the row is
untouched. -/
theorem targeted_match_confidence_and_outcome_float (rcpt : Receipt)
    (tx : Transaction) (now : Nat) :
    (match_receipt_targeted_float rcpt tx now).2 =
      (if amountMatchFloat tx.amount rcpt.amount ∧
          merchantMatch rcpt.merchant_name tx.merchant_name then 95/100
       else if amountMatchFloat tx.amount rcpt.amount ∨
          merchantMatch rcpt.merchant_name tx.merchant_name then 7/10
       else 3/10) ∧
    ((8:ℚ)/10 ≤ (match_receipt_targeted_float rcpt tx now).2 ↔
      amountMatchFloat tx.amount rcpt.amount = true ∧
      merchantMatch rcpt.merchant_name tx.merchant_name = true) ∧
    ((8:ℚ)/10 ≤ (match_receipt_targeted_float rcpt tx now).2 →
      (match_receipt_targeted_float rcpt tx now).1.receipt_verified =
        true ∧
      (match_receipt_targeted_float rcpt tx now).1.receipt_verified_at =
        some now ∧
      (match_receipt_targeted_float rcpt tx now).1.status =
        (if tx.status = .APPROVED then .VERIFIED else tx.status)) ∧
    ((match_receipt_targeted_float rcpt tx now).2 < 8/10 →
      (match_receipt_targeted_float rcpt tx now).1 = tx) := by
  by_cases hst : tx.status = TransactionStatus.APPROVED <;>
  cases ham : amountMatchFloat tx.amount rcpt.amount <;>
  cases hmm : merchantMatch rcpt.merchant_name tx.merchant_name <;>
  simp only [match_receipt_targeted_float, matchConfidence, ham, hmm,
    verify_transaction_receipt, hst, Bool.and_self, Bool.and_false,
    Bool.false_and, Bool.and_true, Bool.true_and, Bool.or_self,
    Bool.or_false, Bool.false_or, Bool.or_true, Bool.true_or,
    if_true, if_false] <;>
  norm_num [hst]

/-- Witness for the amended C8: a receipt agreeing with an APPROVED
transaction on amount and merchant gets verified. -/
theorem targeted_match_confidence_and_outcome_float_witness :
    (match_receipt_targeted_float ⟨"OFFICE_SUPPLIES_INC", 14999/100⟩
        { card_id := 1, amount := 14999/100
          merchant_name := "OFFICE_SUPPLIES_INC"
          status := .APPROVED } 5).1.receipt_verified = true ∧
    (match_receipt_targeted_float ⟨"OFFICE_SUPPLIES_INC", 14999/100⟩
        { card_id := 1, amount := 14999/100
          merchant_name := "OFFICE_SUPPLIES_INC"
          status := .APPROVED } 5).1.receipt_verified_at = some 5 ∧
    (match_receipt_targeted_float ⟨"OFFICE_SUPPLIES_INC", 14999/100⟩
        { card_id := 1, amount := 14999/100
          merchant_name := "OFFICE_SUPPLIES_INC"
          status := .APPROVED } 5).1.status =
      (if ({ card_id := 1, amount := 14999/100
             merchant_name := "OFFICE_SUPPLIES_INC"
             status := .APPROVED } : Transaction).status = .APPROVED then
        .VERIFIED
      else ({ card_id := 1, amount := 14999/100
              merchant_name := "OFFICE_SUPPLIES_INC"
              status := .APPROVED } : Transaction).status) := by
  have ham := equal_amounts_float_match ((14999:ℚ)/100)
  have hmm : merchantMatch "OFFICE_SUPPLIES_INC" "OFFICE_SUPPLIES_INC"
      = true := by decide
  exact (targeted_match_confidence_and_outcome_float _ _ 5).2.2.1
    (by norm_num [match_receipt_targeted_float, matchConfidence, ham, hmm])

/-- C9 counterexample. Re-invoking targeted reconciliation at a later
instant is not a state-wise no-op: `verify_transaction_receipt`
unconditionally refreshes `receipt_verified_at` to the second
invocation's `utcnow`, so the state after the second call differs from
the state after the first. -/
theorem reverify_not_noop_counterexample :
    (match_receipt_targeted rcpt0 (match_receipt_targeted rcpt0 tx0 0).1
      1).1 ≠ (match_receipt_targeted rcpt0 tx0 0).1 := by
  have ham : amountMatch tx0.amount rcpt0.amount = true := by
    norm_num [amountMatch, tx0, rcpt0]
  have hmm : merchantMatch rcpt0.merchant_name tx0.merchant_name = true := by
    decide
  have e1 := match_receipt_targeted_of_matches rcpt0 tx0 0 ham hmm
  have hf := verify_receipt_fields tx0 0
  have ham1 : amountMatch (verify_transaction_receipt tx0 true 0).amount
      rcpt0.amount = true := by rw [hf.1]; exact ham
  have hmm1 : merchantMatch rcpt0.merchant_name
      (verify_transaction_receipt tx0 true 0).merchant_name = true := by
    rw [hf.2.1]; exact hmm
  have e2 := match_receipt_targeted_of_matches rcpt0
    (verify_transaction_receipt tx0 true 0) 1 ham1 hmm1
  rw [e1, e2]
  simp [verify_transaction_receipt, tx0]

/-- C9 (amended). After a first targeted reconciliation that accepts a
high-confidence match, re-invoking with the same receipt reproduces the
state except that `receipt_verified_at` is refreshed to the second
invocation's instant (`status` stays VERIFIED and `receipt_verified`
stays true); re-invoked at the same instant, it is an exact state-wise
no-op. -/
theorem reverify_idempotent_up_to_timestamp (rcpt : Receipt)
    (tx : Transaction) (n1 n2 : Nat)
    (h : (8:ℚ)/10 ≤ (match_receipt_targeted rcpt tx n1).2) :
    (match_receipt_targeted rcpt (match_receipt_targeted rcpt tx n1).1
        n2).1 =
      { (match_receipt_targeted rcpt tx n1).1 with
        receipt_verified_at := some n2 } ∧
    (match_receipt_targeted rcpt (match_receipt_targeted rcpt tx n1).1
        n1).1 =
      (match_receipt_targeted rcpt tx n1).1 := by
  have hboth : amountMatch tx.amount rcpt.amount = true ∧
      merchantMatch rcpt.merchant_name tx.merchant_name = true := by
    cases ham : amountMatch tx.amount rcpt.amount <;>
    cases hmm : merchantMatch rcpt.merchant_name tx.merchant_name <;>
    simp only [match_receipt_targeted, matchConfidence, ham, hmm,
      Bool.and_self, Bool.and_false, Bool.false_and, Bool.and_true,
      Bool.true_and, Bool.or_self, Bool.or_false, Bool.false_or,
      Bool.or_true, Bool.true_or, if_true, if_false] at h <;>
    norm_num at h <;> exact ⟨rfl, rfl⟩
  obtain ⟨ham, hmm⟩ := hboth
  have e1 := match_receipt_targeted_of_matches rcpt tx n1 ham hmm
  have hf := verify_receipt_fields tx n1
  have ham1 : amountMatch (verify_transaction_receipt tx true n1).amount
      rcpt.amount = true := by rw [hf.1]; exact ham
  have hmm1 : merchantMatch rcpt.merchant_name
      (verify_transaction_receipt tx true n1).merchant_name = true := by
    rw [hf.2.1]; exact hmm
  have e2 := match_receipt_targeted_of_matches rcpt
    (verify_transaction_receipt tx true n1) n2 ham1 hmm1
  have e2' := match_receipt_targeted_of_matches rcpt
    (verify_transaction_receipt tx true n1) n1 ham1 hmm1
  rw [e1, e2, e2']
  by_cases hst : tx.status = TransactionStatus.APPROVED <;>
  simp [verify_transaction_receipt, hst]

/-- Witness for the amended C9 at `rcpt0`/`tx0`, re-invoked at instant `7`
and at the original instant `0`. -/
theorem reverify_idempotent_up_to_timestamp_witness :
    (match_receipt_targeted rcpt0 (match_receipt_targeted rcpt0 tx0 0).1
        7).1 =
      { (match_receipt_targeted rcpt0 tx0 0).1 with
        receipt_verified_at := some 7 } ∧
    (match_receipt_targeted rcpt0 (match_receipt_targeted rcpt0 tx0 0).1
        0).1 =
      (match_receipt_targeted rcpt0 tx0 0).1 := by
  have ham : amountMatch tx0.amount rcpt0.amount = true := by
    norm_num [amountMatch, tx0, rcpt0]
  have hmm : merchantMatch rcpt0.merchant_name tx0.merchant_name = true := by
    decide
  exact reverify_idempotent_up_to_timestamp rcpt0 tx0 0 7
    (by rw [match_receipt_targeted_of_matches rcpt0 tx0 0 ham hmm]
        norm_num)

/-- C10. Over any rule configuration with non-negative weights (the
evaluator's contract keeps weights in `[0, 1]`; hard-block rules are
exactly those of weight `≥ 1`), a blocked verdict of
`check_transaction` carries the saturated score `1.0000`,
`passed = false`, and a non-empty reasons list. -/
theorem blocked_verdict_saturates_score (rules : List RuleSpec)
    (hw : ∀ ru ∈ rules, 0 ≤ ru.weight)
    (hb : (check_transaction rules).blocked = true) :
    (check_transaction rules).score = 1 ∧
    (check_transaction rules).passed = false ∧
    (check_transaction rules).reasons ≠ [] :=
  runRules_blocked_saturates rules {} hw (le_refl 0) rfl hb

/-- Witness for C10 on a single violated hard-block rule. -/
theorem blocked_verdict_saturates_score_witness :
    (check_transaction [⟨1, .eval true "amount over limit"⟩]).score = 1 ∧
    (check_transaction [⟨1, .eval true "amount over limit"⟩]).passed =
      false ∧
    (check_transaction [⟨1, .eval true "amount over limit"⟩]).reasons ≠
      [] :=
  blocked_verdict_saturates_score _ (by norm_num)
    (by norm_num [check_transaction, runRules])
